import Mathlib

/-!
Verification development for the "Atlas Cívico" civic-issue reporting
application. The definitions below are a shallow embedding of the
repository's TypeScript source:

* `src/services/issue-service.ts` — `fromFirestore`, `addIssueClient`,
  `deleteCommentFromIssue`;
* `src/app/page.tsx` — `handleUpvote`, the category-filter memo/effect;
* `src/components/map.tsx` — the clustering options passed to
  `useSupercluster` (the clustering algorithm itself is a third-party
  library, modelled from the specification where needed).

JavaScript `Date`/Firestore `Timestamp` values are modelled as `Int`
(milliseconds), JavaScript numbers appearing only as data as `ℚ`, and
JavaScript `Set`s as duplicate-free lists in insertion order.
-/

namespace AtlasCivico

/-- Raw persisted comment shape (`CommentData` in `src/lib/types`):
creation time is a Firestore `Timestamp`, modelled as `Int`. -/
structure CommentData where
  id : String
  content : String
  author : String
  authorId : String
  authorPhotoURL : Option String
  authorRole : String
  createdAt : Int
  deriving Repr, DecidableEq

/-- Domain comment shape (`Comment` in `src/lib/types`): creation time is
a JS `Date`, modelled as `Int`. -/
structure Comment where
  id : String
  content : String
  author : String
  authorId : String
  authorPhotoURL : Option String
  authorRole : String
  createdAt : Int
  deriving Repr, DecidableEq

/-- Embedding of the per-comment conversion performed inside
`fromFirestore`: `{...comment, createdAt: comment.createdAt.toDate()}`.
On the `Int` time model `Timestamp.toDate` is the identity. -/
def convComment (c : CommentData) : Comment :=
  { id := c.id
    content := c.content
    author := c.author
    authorId := c.authorId
    authorPhotoURL := c.authorPhotoURL
    authorRole := c.authorRole
    createdAt := c.createdAt }

/-- Comparator embedding of `(a, b) => b.createdAt.getTime() - a.createdAt.getTime()`:
`a` sorts no later than `b` exactly when `b.createdAt ≤ a.createdAt`
(descending by creation time). -/
def commentLe (a b : Comment) : Bool :=
  decide (b.createdAt ≤ a.createdAt)

/-- Embedding of the `.sort(...)` call on the converted comment list in
`fromFirestore` (`src/services/issue-service.ts:68`). -/
def sortCommentsDesc (cs : List Comment) : List Comment :=
  cs.mergeSort commentLe

/-- Firestore `GeoPoint`, modelled with rational coordinates. -/
structure GeoPointM where
  latitude : ℚ
  longitude : ℚ
  deriving Repr, DecidableEq

/-- Raw persisted issue document (`IssueData` as actually read by
`fromFirestore`): `reportedAt`, `upvotes` and `comments` may be absent in
the stored record, hence `Option`. -/
structure IssueDoc where
  title : String
  description : String
  category : String
  status : String
  location : GeoPointM
  address : String
  imageUrl : String
  reportedAt : Option Int
  reporter : String
  reporterId : String
  upvotes : Option Nat
  comments : Option (List CommentData)
  deriving Repr, DecidableEq

/-- Domain issue (`Issue` in `src/lib/types`) produced by normalization. -/
structure Issue where
  id : String
  title : String
  description : String
  category : String
  status : String
  lat : ℚ
  lng : ℚ
  address : String
  imageUrl : String
  reportedAt : Int
  reporter : String
  reporterId : String
  upvotes : Nat
  comments : List Comment
  deriving Repr, DecidableEq

/-- Embedding of `fromFirestore` (`src/services/issue-service.ts:46-70`).
`now` stands for `new Date()` in
`data.reportedAt ? data.reportedAt.toDate() : new Date()`;
`data.upvotes || 0` and `data.comments || []` become `Option.getD`. -/
def fromFirestore (docData : IssueDoc) (id : String) (now : Int) : Issue :=
  { id := id
    title := docData.title
    description := docData.description
    category := docData.category
    status := docData.status
    lat := docData.location.latitude
    lng := docData.location.longitude
    address := docData.address
    imageUrl := docData.imageUrl
    reportedAt := docData.reportedAt.getD now
    reporter := docData.reporter
    reporterId := docData.reporterId
    upvotes := docData.upvotes.getD 0
    comments := sortCommentsDesc ((docData.comments.getD []).map convComment) }

theorem commentLe_trans (a b c : Comment) :
    commentLe a b → commentLe b c → commentLe a c := by
  simp only [commentLe, decide_eq_true_eq]
  omega

theorem commentLe_total (a b : Comment) : commentLe a b || commentLe b a := by
  simp only [commentLe]
  by_cases h : b.createdAt ≤ a.createdAt
  · simp [h]
  · simp [h]; omega

/-- C3. Normalization defaults: a raw record with no `comments` field
normalizes to an `Issue` with an empty comment collection (and no error is
raised — `fromFirestore` is total); a missing `upvotes` field normalizes
to `0`; a missing `reportedAt` timestamp normalizes to the current time. -/
theorem fromFirestore_defaults (d : IssueDoc) (id : String) (now : Int) :
    (d.comments = none → (fromFirestore d id now).comments = []) ∧
    (d.upvotes = none → (fromFirestore d id now).upvotes = 0) ∧
    (d.reportedAt = none → (fromFirestore d id now).reportedAt = now) := by
  refine ⟨fun hc => ?_, fun hu => ?_, fun hr => ?_⟩
  · simp [fromFirestore, hc, sortCommentsDesc, List.mergeSort_nil]
  · simp [fromFirestore, hu]
  · simp [fromFirestore, hr]

/-- Concrete raw record missing `comments`, `upvotes` and `reportedAt`. -/
def bareDoc : IssueDoc :=
  { title := "Poste quebrado"
    description := "Poste sem luz"
    category := "Iluminação pública"
    status := "Recebido"
    location := { latitude := -16, longitude := -48 }
    address := "Rua 1"
    imageUrl := "img"
    reportedAt := none
    reporter := "Maria"
    reporterId := "u1"
    upvotes := none
    comments := none }

theorem fromFirestore_defaults_witness :
    (fromFirestore bareDoc "d1" 42).comments = [] ∧
    (fromFirestore bareDoc "d1" 42).upvotes = 0 ∧
    (fromFirestore bareDoc "d1" 42).reportedAt = 42 :=
  ⟨(fromFirestore_defaults bareDoc "d1" 42).1 rfl,
   (fromFirestore_defaults bareDoc "d1" 42).2.1 rfl,
   (fromFirestore_defaults bareDoc "d1" 42).2.2 rfl⟩

/-- C4. Whenever the embedded comments of a raw record have pairwise
distinct creation times, the comment collection of the normalized `Issue`
is sorted strictly descending by creation time (newest first). -/
theorem fromFirestore_comments_sorted_desc (d : IssueDoc) (id : String) (now : Int)
    (h : ((d.comments.getD []).map (fun c => c.createdAt)).Pairwise (fun x y => x ≠ y)) :
    (fromFirestore d id now).comments.Pairwise
      (fun a b => b.createdAt < a.createdAt) := by
  have hmap : ((d.comments.getD []).map convComment).map (fun c : Comment => c.createdAt)
      = (d.comments.getD []).map (fun c => c.createdAt) := by
    simp [List.map_map, convComment, Function.comp]
  have hne : ((d.comments.getD []).map convComment).Pairwise
      (fun a b : Comment => a.createdAt ≠ b.createdAt) := by
    have := hmap ▸ h
    exact List.pairwise_map.mp this
  have hperm := List.mergeSort_perm ((d.comments.getD []).map convComment) commentLe
  have hneSorted : (((d.comments.getD []).map convComment).mergeSort commentLe).Pairwise
      (fun a b : Comment => a.createdAt ≠ b.createdAt) :=
    (hperm.pairwise_iff (fun hxy => hxy.symm)).mpr hne
  have hsorted := List.sorted_mergeSort commentLe_trans commentLe_total
    ((d.comments.getD []).map convComment)
  have : (((d.comments.getD []).map convComment).mergeSort commentLe).Pairwise
      (fun a b : Comment => b.createdAt < a.createdAt) := by
    refine List.Pairwise.imp₂ (fun a b hle hne2 => ?_) hsorted hneSorted
    have hle2 : b.createdAt ≤ a.createdAt := by
      simpa [commentLe] using hle
    exact lt_of_le_of_ne hle2 (fun e => hne2 e.symm)
  simpa [fromFirestore, sortCommentsDesc] using this

/-- Concrete comment data for the C4 witness. -/
def mkComment (i : String) (t : Int) : CommentData :=
  { id := i
    content := "c"
    author := "a"
    authorId := "aid"
    authorPhotoURL := none
    authorRole := "user"
    createdAt := t }

/-- Concrete raw record with three comments at distinct times. -/
def commentedDoc : IssueDoc :=
  { bareDoc with comments := some [mkComment "c1" 5, mkComment "c2" 9, mkComment "c3" 1] }

theorem fromFirestore_comments_sorted_desc_witness :
    (fromFirestore commentedDoc "d2" 0).comments.Pairwise
      (fun a b => b.createdAt < a.createdAt) :=
  fromFirestore_comments_sorted_desc commentedDoc "d2" 0 (by decide)

/-- Authenticated application user; only the identifier is relevant to the
upvote path (`appUser.uid`). -/
structure AppUserM where
  uid : String
  deriving Repr, DecidableEq

/-- JS `Set.add` on the insertion-ordered duplicate-free list model:
appends the element if it is not already present. -/
def setAdd (l : List String) (x : String) : List String :=
  if l.contains x then l else l ++ [x]

/-- JS `Set.delete` on the list model: removes the element. -/
def setDelete (l : List String) (x : String) : List String :=
  l.filter (fun y => y ≠ x)

/-- Client-local state touched by `handleUpvote` (`src/app/page.tsx`):
the in-memory upvoted set and the `localStorage` entry
`upvotedIssues_<uid>` of the current user (`none` when absent). -/
structure UpvoteState where
  upvoted : List String
  ledger : Option (List String)
  deriving Repr, DecidableEq

/-- Observable outcome of one `handleUpvote` call: the post-call state
plus counters for the effects the call performed (persistence calls to
`updateIssueUpvotes`, `localStorage.setItem` writes, toast titles shown,
whether the user was redirected to `/login`). -/
structure UpvoteResult where
  upvoted : List String
  ledger : Option (List String)
  persistCalls : Nat
  persistedValue : Option Nat
  ledgerWrites : Nat
  toasts : List String
  redirected : Bool
  deriving Repr, DecidableEq

/-- Embedding of `handleUpvote` (`src/app/page.tsx:183-212`). `persistOk`
is the outcome of the awaited `updateIssueUpvotes(issueId, currentUpvotes + 1)`
call: `false` means the promise rejected and the `catch` block runs. In
the `catch` block the code rebuilds the set from the closure-captured
pre-call `upvotedIssues` and deletes `issueId` from it. -/
def handleUpvote (appUser : Option AppUserM) (st : UpvoteState) (issueId : String)
    (currentUpvotes : Nat) (persistOk : Bool) : UpvoteResult :=
  match appUser with
  | none =>
    { upvoted := st.upvoted, ledger := st.ledger, persistCalls := 0,
      persistedValue := none, ledgerWrites := 0, toasts := ["Acesso Negado"],
      redirected := true }
  | some _ =>
    if st.upvoted.contains issueId then
      { upvoted := st.upvoted, ledger := st.ledger, persistCalls := 0,
        persistedValue := none, ledgerWrites := 0, toasts := [], redirected := false }
    else
      let newUpvotedSet := setAdd st.upvoted issueId
      if persistOk then
        { upvoted := newUpvotedSet, ledger := some newUpvotedSet, persistCalls := 1,
          persistedValue := some (currentUpvotes + 1), ledgerWrites := 1, toasts := [],
          redirected := false }
      else
        { upvoted := setDelete st.upvoted issueId, ledger := st.ledger, persistCalls := 1,
          persistedValue := some (currentUpvotes + 1), ledgerWrites := 0,
          toasts := ["Erro ao apoiar"], redirected := false }

theorem setDelete_of_not_mem (l : List String) (x : String)
    (h : x ∉ l) : setDelete l x = l := by
  induction l with
  | nil => rfl
  | cons a as ih =>
    simp only [List.mem_cons, not_or] at h
    simp [setDelete, List.filter_cons, Ne.symm h.1]
    simpa [setDelete] using ih h.2

theorem setAdd_mem (l : List String) (x : String) : x ∈ setAdd l x := by
  by_cases h : x ∈ l
  · simp [setAdd, h]
  · simp [setAdd, h]

/-- C2. Upvote rollback: for an authenticated user and an issue id not in
the local upvoted set, if the persistence call fails then after
`handleUpvote` resolves the issue id is absent from the upvoted set (the
set equals its pre-call value), the `localStorage` ledger is unchanged
(no write happened), and exactly one failure toast ("Erro ao apoiar")
fired. -/
theorem handleUpvote_rollback (u : AppUserM) (st : UpvoteState) (issueId : String)
    (n : Nat) (h : issueId ∉ st.upvoted) :
    (handleUpvote (some u) st issueId n false).upvoted = st.upvoted ∧
    issueId ∉ (handleUpvote (some u) st issueId n false).upvoted ∧
    (handleUpvote (some u) st issueId n false).ledger = st.ledger ∧
    (handleUpvote (some u) st issueId n false).ledgerWrites = 0 ∧
    (handleUpvote (some u) st issueId n false).toasts = ["Erro ao apoiar"] := by
  have hdel := setDelete_of_not_mem st.upvoted issueId h
  refine ⟨?_, ?_, ?_, ?_, ?_⟩ <;>
    simp [handleUpvote, h, hdel]

theorem handleUpvote_rollback_witness :
    (handleUpvote (some ⟨"u1"⟩) ⟨["i9"], some ["i9"]⟩ "i1" 3 false).upvoted = ["i9"] ∧
    "i1" ∉ (handleUpvote (some ⟨"u1"⟩) ⟨["i9"], some ["i9"]⟩ "i1" 3 false).upvoted ∧
    (handleUpvote (some ⟨"u1"⟩) ⟨["i9"], some ["i9"]⟩ "i1" 3 false).ledger = some ["i9"] ∧
    (handleUpvote (some ⟨"u1"⟩) ⟨["i9"], some ["i9"]⟩ "i1" 3 false).ledgerWrites = 0 ∧
    (handleUpvote (some ⟨"u1"⟩) ⟨["i9"], some ["i9"]⟩ "i1" 3 false).toasts = ["Erro ao apoiar"] :=
  handleUpvote_rollback ⟨"u1"⟩ ⟨["i9"], some ["i9"]⟩ "i1" 3 (by decide)

/-- C6. Upvote idempotence at the call interface: for an authenticated
user, after a first successful `handleUpvote` call puts the issue id in
the local upvoted set, a second call for the same id is a silent no-op —
no state change, no `localStorage` write, no toast, no persistence call —
so the two calls together issue exactly one persistence call (regardless
of what the backend would have answered to the second call). -/
theorem handleUpvote_second_call_noop (u : AppUserM) (st : UpvoteState)
    (issueId : String) (n₁ n₂ : Nat) (b : Bool)
    (h : issueId ∉ st.upvoted) :
    (handleUpvote (some u)
        ⟨(handleUpvote (some u) st issueId n₁ true).upvoted,
         (handleUpvote (some u) st issueId n₁ true).ledger⟩ issueId n₂ b).upvoted
      = (handleUpvote (some u) st issueId n₁ true).upvoted ∧
    (handleUpvote (some u)
        ⟨(handleUpvote (some u) st issueId n₁ true).upvoted,
         (handleUpvote (some u) st issueId n₁ true).ledger⟩ issueId n₂ b).ledger
      = (handleUpvote (some u) st issueId n₁ true).ledger ∧
    (handleUpvote (some u)
        ⟨(handleUpvote (some u) st issueId n₁ true).upvoted,
         (handleUpvote (some u) st issueId n₁ true).ledger⟩ issueId n₂ b).ledgerWrites = 0 ∧
    (handleUpvote (some u)
        ⟨(handleUpvote (some u) st issueId n₁ true).upvoted,
         (handleUpvote (some u) st issueId n₁ true).ledger⟩ issueId n₂ b).toasts = [] ∧
    (handleUpvote (some u) st issueId n₁ true).persistCalls +
      (handleUpvote (some u)
        ⟨(handleUpvote (some u) st issueId n₁ true).upvoted,
         (handleUpvote (some u) st issueId n₁ true).ledger⟩ issueId n₂ b).persistCalls = 1 := by
  have hmem := setAdd_mem st.upvoted issueId
  refine ⟨?_, ?_, ?_, ?_, ?_⟩ <;>
    simp [handleUpvote, h, hmem]

theorem handleUpvote_second_call_noop_witness :
    (handleUpvote (some ⟨"u1"⟩)
        ⟨(handleUpvote (some ⟨"u1"⟩) ⟨[], none⟩ "i1" 3 true).upvoted,
         (handleUpvote (some ⟨"u1"⟩) ⟨[], none⟩ "i1" 3 true).ledger⟩ "i1" 4 true).toasts = [] ∧
    (handleUpvote (some ⟨"u1"⟩) ⟨[], none⟩ "i1" 3 true).persistCalls +
      (handleUpvote (some ⟨"u1"⟩)
        ⟨(handleUpvote (some ⟨"u1"⟩) ⟨[], none⟩ "i1" 3 true).upvoted,
         (handleUpvote (some ⟨"u1"⟩) ⟨[], none⟩ "i1" 3 true).ledger⟩ "i1" 4 true).persistCalls = 1 :=
  ⟨(handleUpvote_second_call_noop ⟨"u1"⟩ ⟨[], none⟩ "i1" 3 4 true (by decide)).2.2.2.1,
   (handleUpvote_second_call_noop ⟨"u1"⟩ ⟨[], none⟩ "i1" 3 4 true (by decide)).2.2.2.2⟩

/-- Drops the leading whitespace characters of a character list. -/
def dropLeadingWs : List Char → List Char
  | [] => []
  | c :: cs => if c.isWhitespace then dropLeadingWs cs else c :: cs

/-- JS `String.prototype.trim`: strips leading and trailing whitespace
characters (trailing ones are stripped by reversing, stripping leading
ones, and reversing back). -/
def jsTrim (s : String) : String :=
  String.mk ((dropLeadingWs (dropLeadingWs s.data).reverse).reverse)

/-- Characters `encodeURIComponent` leaves unescaped:
`A-Z a-z 0-9 - _ . ! ~ * ' ( )`. -/
def isUnreservedChar (c : Char) : Bool :=
  c.isAlpha || c.isDigit || c == '-' || c == '_' || c == '.' || c == '!' ||
    c == '~' || c == '*' || c == '\'' || c == '(' || c == ')'

def hexDigitChar (n : Nat) : Char :=
  if n < 10 then Char.ofNat (48 + n) else Char.ofNat (55 + n)

/-- UTF-8 byte sequence of a character, for percent-encoding. -/
def utf8ByteList (c : Char) : List Nat :=
  let n := c.toNat
  if n < 128 then [n]
  else if n < 2048 then [192 + n / 64, 128 + n % 64]
  else if n < 65536 then [224 + n / 4096, 128 + n / 64 % 64, 128 + n % 64]
  else [240 + n / 262144, 128 + n / 4096 % 64, 128 + n / 64 % 64, 128 + n % 64]

def percentEncodeByte (b : Nat) : String :=
  String.mk ['%', hexDigitChar (b / 16), hexDigitChar (b % 16)]

/-- JS `encodeURIComponent`: unreserved characters pass through, every
other character is percent-encoded byte by byte (UTF-8). -/
def encodeURIComponent (s : String) : String :=
  String.join (s.data.map (fun c =>
    if isUnreservedChar c then String.singleton c
    else String.join ((utf8ByteList c).map percentEncodeByte)))

/-- A JS value arriving in a coordinate slot: a finite number, `NaN`, or
something that is not of type `number` at all. -/
inductive NumVal where
  | num (q : ℚ)
  | nan
  | notNum
  deriving Repr, DecidableEq

/-- Passes the `typeof ... === "number" && !Number.isNaN(...)` check of
`addIssueClient`. -/
def NumVal.isValidCoord : NumVal → Bool
  | .num _ => true
  | .nan => false
  | .notNum => false

def NumVal.toQ : NumVal → ℚ
  | .num q => q
  | .nan => 0
  | .notNum => 0

/-- Input shape of `addIssueClient` (`NewIssue` in
`src/services/issue-service.ts`); coordinate slots are `NumVal` because
the validation code guards against non-numbers and `NaN`. -/
structure NewIssue where
  title : String
  description : String
  category : String
  lat : NumVal
  lng : NumVal
  address : String
  reporter : String
  reporterId : String
  deriving Repr, DecidableEq

/-- Payload written by `addDoc` in `addIssueClient`
(`src/services/issue-service.ts:109-122`); `reportedAt` is the server
timestamp, assigned at persistence time and therefore absent here. -/
structure IssuePayload where
  title : String
  description : String
  category : String
  status : String
  upvotes : Nat
  reporter : String
  reporterId : String
  address : String
  imageUrl : String
  location : GeoPointM
  comments : List CommentData
  deriving Repr, DecidableEq

/-- Persistence effects `addIssueClient` can issue: the document write
and the reporter-counter increment on `users/<reporterId>`. -/
inductive PersistEff where
  | addDoc (p : IssuePayload)
  | incrementIssuesReported (uid : String)
  deriving Repr, DecidableEq

/-- Embedding of `addIssueClient` (`src/services/issue-service.ts:91-133`):
the first component is the synchronous result (validation errors are the
thrown messages), the second the ordered list of persistence calls the
function issues. A falsy JS string is the empty string, so
`issue.category || "Outros"` and the `!issue.reporterId` check become
comparisons with `""`. -/
def addIssueClient (issue : NewIssue) : Except String IssuePayload × List PersistEff :=
  if jsTrim issue.title = "" then (.error "Título obrigatório", [])
  else if jsTrim issue.description = "" then (.error "Descrição obrigatória", [])
  else if jsTrim issue.address = "" then (.error "Endereço obrigatório", [])
  else if issue.reporterId = "" then (.error "ID do relator é obrigatório", [])
  else if !issue.lat.isValidCoord || !issue.lng.isValidCoord then
    (.error "Localização inválida", [])
  else
    let payload : IssuePayload :=
      { title := jsTrim issue.title
        description := jsTrim issue.description
        category := if issue.category = "" then "Outros" else issue.category
        status := "Recebido"
        upvotes := 0
        reporter := issue.reporter
        reporterId := issue.reporterId
        address := jsTrim issue.address
        imageUrl := "https://placehold.co/600x400.png?text=" ++ encodeURIComponent issue.title
        location := { latitude := issue.lat.toQ, longitude := issue.lng.toQ }
        comments := [] }
    (.ok payload, [.addDoc payload, .incrementIssuesReported issue.reporterId])

/-- The stored document that results from persisting an `addIssueClient`
payload: the server assigns the `reportedAt` timestamp. -/
def payloadToDoc (p : IssuePayload) (serverTime : Int) : IssueDoc :=
  { title := p.title
    description := p.description
    category := p.category
    status := p.status
    location := p.location
    address := p.address
    imageUrl := p.imageUrl
    reportedAt := some serverTime
    reporter := p.reporter
    reporterId := p.reporterId
    upvotes := some p.upvotes
    comments := some p.comments }

/-- C7. Validation: for every new-issue input with an empty or
whitespace-only title, description or address, a missing (empty) reporter
id, or a non-numeric or NaN latitude or longitude, `addIssueClient`
returns a synchronous validation error and issues no persistence call (no
document write and no reporter-counter increment). -/
theorem addIssueClient_validation_no_persist (i : NewIssue)
    (h : jsTrim i.title = "" ∨ jsTrim i.description = "" ∨ jsTrim i.address = "" ∨
      i.reporterId = "" ∨ i.lat.isValidCoord = false ∨ i.lng.isValidCoord = false) :
    (∃ e, (addIssueClient i).1 = Except.error e) ∧ (addIssueClient i).2 = [] := by
  unfold addIssueClient
  split_ifs with h1 h2 h3 h4 h5
  · exact ⟨⟨_, rfl⟩, rfl⟩
  · exact ⟨⟨_, rfl⟩, rfl⟩
  · exact ⟨⟨_, rfl⟩, rfl⟩
  · exact ⟨⟨_, rfl⟩, rfl⟩
  · exact ⟨⟨_, rfl⟩, rfl⟩
  · exfalso
    simp only [Bool.or_eq_true, Bool.not_eq_true'] at h5
    push_neg at h5
    rcases h with h | h | h | h | h | h
    · exact h1 h
    · exact h2 h
    · exact h3 h
    · exact h4 h
    · exact absurd h h5.1
    · exact absurd h h5.2

/-- Concrete invalid input: whitespace-only title. -/
def badIssueInput : NewIssue :=
  { title := "   "
    description := "Large pothole"
    category := "Roads"
    lat := .num (-16)
    lng := .num (-48)
    address := "Rua Principal"
    reporter := "Maria"
    reporterId := "u1" }

theorem addIssueClient_validation_no_persist_witness :
    (∃ e, (addIssueClient badIssueInput).1 = Except.error e) ∧
    (addIssueClient badIssueInput).2 = [] :=
  addIssueClient_validation_no_persist badIssueInput (Or.inl (by decide))

/-- C9. Initial values of a newly created issue: every valid new-issue
input is persisted with status `"Recebido"` (the spec's `Received`),
upvote count `0`, an empty comment collection, and the placeholder image
URL derived from the issue title; normalizing the stored record through
`fromFirestore` (as the live subscription does) yields an `Issue` with
exactly those values. -/
theorem addIssueClient_initial_values (i : NewIssue) (serverTime now : Int)
    (docId : String)
    (h1 : ¬ jsTrim i.title = "") (h2 : ¬ jsTrim i.description = "")
    (h3 : ¬ jsTrim i.address = "") (h4 : ¬ i.reporterId = "")
    (h5 : i.lat.isValidCoord = true) (h6 : i.lng.isValidCoord = true) :
    ∃ p effs, addIssueClient i = (Except.ok p, effs) ∧
      p.status = "Recebido" ∧ p.upvotes = 0 ∧ p.comments = [] ∧
      p.imageUrl = "https://placehold.co/600x400.png?text=" ++ encodeURIComponent i.title ∧
      (fromFirestore (payloadToDoc p serverTime) docId now).status = "Recebido" ∧
      (fromFirestore (payloadToDoc p serverTime) docId now).upvotes = 0 ∧
      (fromFirestore (payloadToDoc p serverTime) docId now).comments = [] ∧
      (fromFirestore (payloadToDoc p serverTime) docId now).imageUrl =
        "https://placehold.co/600x400.png?text=" ++ encodeURIComponent i.title := by
  have hv : (!i.lat.isValidCoord || !i.lng.isValidCoord) = false := by
    simp [h5, h6]
  unfold addIssueClient
  rw [if_neg h1, if_neg h2, if_neg h3, if_neg h4, hv]
  simp only [Bool.false_eq_true, if_false]
  refine ⟨_, _, rfl, rfl, rfl, rfl, rfl, ?_, ?_, ?_, ?_⟩ <;>
    simp [fromFirestore, payloadToDoc, sortCommentsDesc, List.mergeSort_nil]

/-- Concrete valid input from the spec's end-to-end scenario (§8),
extended with the required address/reporter fields. -/
def potholeInput : NewIssue :=
  { title := "Pothole"
    description := "Large pothole"
    category := "Roads"
    lat := .num (-16)
    lng := .num (-48)
    address := "Rua Principal"
    reporter := "Maria"
    reporterId := "u1" }

theorem addIssueClient_initial_values_witness :
    ∃ p effs, addIssueClient potholeInput = (Except.ok p, effs) ∧
      p.status = "Recebido" ∧ p.upvotes = 0 ∧ p.comments = [] ∧
      p.imageUrl = "https://placehold.co/600x400.png?text=" ++ encodeURIComponent potholeInput.title ∧
      (fromFirestore (payloadToDoc p 100) "d9" 200).status = "Recebido" ∧
      (fromFirestore (payloadToDoc p 100) "d9" 200).upvotes = 0 ∧
      (fromFirestore (payloadToDoc p 100) "d9" 200).comments = [] ∧
      (fromFirestore (payloadToDoc p 100) "d9" 200).imageUrl =
        "https://placehold.co/600x400.png?text=" ++ encodeURIComponent potholeInput.title :=
  addIssueClient_initial_values potholeInput 100 200 "d9"
    (by decide) (by decide) (by decide) (by decide) (by decide) (by decide)

/-- The `issues` Firestore collection: documents keyed by id. -/
abbrev Store := List (String × IssueDoc)

/-- Point read of a document by id (`getDoc`): `none` when the document
does not exist (`!issueSnap.exists()`). -/
def storeGet (store : Store) (id : String) : Option IssueDoc :=
  (store.find? (fun e => e.1 == id)).map (fun e => e.2)

/-- Document update by id (`updateDoc`). -/
def storeSet (store : Store) (id : String) (d : IssueDoc) : Store :=
  store.map (fun e => if e.1 == id then (e.1, d) else e)

/-- Result of a successful `deleteCommentFromIssue` run: the collection
afterwards and the number of `console.warn` lines emitted. -/
structure DeleteOutcome where
  store : Store
  warnings : Nat
  deriving Repr, DecidableEq

/-- Embedding of `deleteCommentFromIssue`
(`src/services/issue-service.ts:225-243`). A missing document throws
"Ocorrência não encontrada."; the code then reads `issueData.comments`
without a default, so a document with no `comments` field would make the
JS `.find` call throw a `TypeError` (modelled as that error string);
`arrayRemove(commentToDelete)` removes every stored element equal to the
found comment, modelled by `filter`. -/
def deleteCommentFromIssue (store : Store) (issueId commentId : String) :
    Except String DeleteOutcome :=
  match storeGet store issueId with
  | none => Except.error "Ocorrência não encontrada."
  | some idoc =>
    match idoc.comments with
    | none => Except.error "TypeError: comments is undefined"
    | some cs =>
      match cs.find? (fun c => c.id == commentId) with
      | some commentToDelete =>
        Except.ok
          { store := storeSet store issueId
              { idoc with comments := some (cs.filter (fun x => x ≠ commentToDelete)) }
            warnings := 0 }
      | none => Except.ok { store := store, warnings := 1 }

/-- C8 (amended). For every issue that exists in the store whose stored
record carries a `comments` field, deleting a comment that does not exist
is a successful no-op: one warning is logged, no error is surfaced to the
caller, and the stored collection (in particular the issue's comment
collection) is unchanged. The restriction to records carrying a
`comments` field is forced by the counterexample below: on a stored
record without one, `issueData.comments.find(...)`
(`src/services/issue-service.ts:233`) throws a `TypeError` instead. -/
theorem deleteComment_missing_comment_noop (store : Store) (issueId commentId : String)
    (idoc : IssueDoc) (cs : List CommentData)
    (hget : storeGet store issueId = some idoc)
    (hcs : idoc.comments = some cs)
    (hnone : ∀ c ∈ cs, c.id ≠ commentId) :
    deleteCommentFromIssue store issueId commentId =
      Except.ok { store := store, warnings := 1 } := by
  have hfind : cs.find? (fun c => c.id == commentId) = none := by
    apply List.find?_eq_none.mpr
    intro c hc
    simp [hnone c hc]
  simp [deleteCommentFromIssue, hget, hcs, hfind]

theorem deleteComment_missing_comment_noop_witness :
    deleteCommentFromIssue [("i1", commentedDoc)] "i1" "nope" =
      Except.ok { store := [("i1", commentedDoc)], warnings := 1 } :=
  deleteComment_missing_comment_noop [("i1", commentedDoc)] "i1" "nope" commentedDoc
    [mkComment "c1" 5, mkComment "c2" 9, mkComment "c3" 1]
    (by decide) (by decide) (by decide)

/-- C8, counterexample to the claim as stated: the issue `"i1"` exists in
the store (`bareDoc` has no stored comment, so no `commentId` matches),
yet `deleteCommentFromIssue` does not complete as a successful
warning-logged no-op — the stored record lacks the `comments` field, so
the JS `issueData.comments.find(...)` call throws a `TypeError` that is
surfaced to the caller. -/
theorem deleteComment_missing_comment_counterexample :
    storeGet [("i1", bareDoc)] "i1" = some bareDoc ∧
    deleteCommentFromIssue [("i1", bareDoc)] "i1" "c1" =
      Except.error "TypeError: comments is undefined" ∧
    deleteCommentFromIssue [("i1", bareDoc)] "i1" "c1" ≠
      Except.ok { store := [("i1", bareDoc)], warnings := 1 } :=
  ⟨rfl, rfl, fun hcontra => Except.noConfusion hcontra⟩

/-- C10. Deleting a comment of a non-existent parent issue raises the
"Ocorrência não encontrada." error: no write happens and no success
outcome (and in particular no warning-only no-op) is produced — the
not-found-as-successful-no-op treatment applies only to the comment,
never to its parent issue. -/
theorem deleteComment_missing_issue_error (store : Store) (issueId commentId : String)
    (h : storeGet store issueId = none) :
    deleteCommentFromIssue store issueId commentId =
      Except.error "Ocorrência não encontrada." := by
  simp [deleteCommentFromIssue, h]

theorem deleteComment_missing_issue_error_witness :
    deleteCommentFromIssue [("i1", commentedDoc)] "i2" "c1" =
      Except.error "Ocorrência não encontrada." :=
  deleteComment_missing_issue_error [("i1", commentedDoc)] "i2" "c1" (by decide)

/-- Distinct elements in first-appearance order, the JS
`[...new Set(xs)]` idiom; `seen` accumulates the elements already kept. -/
def dedupAux (seen : List String) : List String → List String
  | [] => []
  | x :: xs =>
    if seen.contains x then dedupAux seen xs
    else x :: dedupAux (seen ++ [x]) xs

/-- Embedding of the `allCategories` memo (`src/app/page.tsx:119-121`):
`[...new Set(issues.map(issue => issue.category))]`. -/
def allCategories (issues : List Issue) : List String :=
  dedupAux [] (issues.map (fun i => i.category))

/-- Embedding of the `selectedCategories` initialization effect
(`src/app/page.tsx:127-131`) under React semantics: the memo recomputes
`allCategories` to a fresh array on every `issues` update, so the effect
with dependency `[allCategories]` re-runs on every `issues` update, and
whenever the category list is non-empty it overwrites the selected subset
with the full list. -/
def onIssuesChange (selected : List String) (newIssues : List Issue) : List String :=
  if (allCategories newIssues).length > 0 then allCategories newIssues else selected

/-- Minimal concrete issue with a given id and category. -/
def issueWithCategory (id cat : String) : Issue :=
  { id := id
    title := "t"
    description := "d"
    category := cat
    status := "Recebido"
    lat := 0
    lng := 0
    address := "a"
    imageUrl := "img"
    reportedAt := 0
    reporter := "r"
    reporterId := "rid"
    upvotes := 0
    comments := [] }

/-- C1. Failing-input evaluation: the claim (and the code's own comment,
"inicializa ... no primeiro carregamento") says the selected subset is
set to the full category set only when the category set first becomes
non-empty, so a later issue introducing category "B" must not be
auto-selected. Evaluating the effect embedding shows the opposite: after
the first load selects `["A"]`, the update that introduces "B" re-runs
the effect and resets the selection to the full set `["A", "B"]`, so the
new category "B" is auto-selected (and any user deselection would be
wiped as well). -/
theorem categoryFilter_autoselects_new_category :
    onIssuesChange [] [issueWithCategory "i1" "A"] = ["A"] ∧
    onIssuesChange ["A"] [issueWithCategory "i1" "A", issueWithCategory "i2" "B"]
      = ["A", "B"] ∧
    "B" ∈ onIssuesChange ["A"] [issueWithCategory "i1" "A", issueWithCategory "i2" "B"] := by
  refine ⟨?_, ?_, ?_⟩ <;> decide

/-- Map viewport bounding box (`bounds` in `src/components/map.tsx`,
`[west, south, east, north]`). -/
structure BoundsM where
  west : ℚ
  south : ℚ
  east : ℚ
  north : ℚ
  deriving Repr, DecidableEq

/-- A point fed to the clusterer: the issue id and its coordinates, as
built by the `points` memo in `src/components/map.tsx:45-55`. -/
structure PointM where
  id : String
  lng : ℚ
  lat : ℚ
  deriving Repr, DecidableEq

/-- Render primitives produced by the clusterer: a cluster marker
(centroid coordinate and contained-point count) or a single-issue
marker. -/
inductive RenderPrim where
  | clusterMarker (lng lat : ℚ) (count : Nat)
  | singleMarker (p : PointM)
  deriving Repr, DecidableEq

/-- The `points` memo of `src/components/map.tsx`: one point per issue at
the issue's coordinates. -/
def issuePoints (issues : List Issue) : List PointM :=
  issues.map (fun i => { id := i.id, lng := i.lng, lat := i.lat })

def inBounds (b : BoundsM) (p : PointM) : Bool :=
  b.west ≤ p.lng && p.lng ≤ b.east && b.south ≤ p.lat && p.lat ≤ b.north

/-- Grid cell of a point at a zoom level: world coordinates scaled to
pixels at the given zoom (256·2^zoom world pixels) and partitioned into
cells of the fixed 75-pixel cluster radius. -/
def cellOf (zoomFloor : Nat) (p : PointM) : Int × Int :=
  let scale : ℚ := ((2 ^ zoomFloor : Nat) : ℚ) * 256 / 75
  (⌊(p.lng + 180) / 360 * scale⌋, ⌊(p.lat + 90) / 180 * scale⌋)

/-- Appends a point to its cell, preserving first-appearance cell order. -/
def insertCell (cells : List ((Int × Int) × List PointM)) (k : Int × Int)
    (p : PointM) : List ((Int × Int) × List PointM) :=
  match cells with
  | [] => [(k, [p])]
  | (k2, ps) :: rest =>
    if k2 = k then (k2, ps ++ [p]) :: rest else (k2, ps) :: insertCell rest k p

def gridCells (zoomFloor : Nat) (ps : List PointM) :
    List ((Int × Int) × List PointM) :=
  ps.foldl (fun cells p => insertCell cells (cellOf zoomFloor p) p) []

def centroidLng (ps : List PointM) : ℚ := (ps.map (fun p => p.lng)).sum / ps.length

def centroidLat (ps : List PointM) : ℚ := (ps.map (fun p => p.lat)).sum / ps.length

/-- Modelled from the spec: the spatial clusterer implementation (the
`supercluster` library behind `useSupercluster`) is not part of this
repository's sources — only its configuration (`radius: 75`,
`maxZoom: 20`, `src/components/map.tsx:57-62`) is. Following §4.3 of the
specification: the points inside the current viewport are partitioned by
a grid/cluster merge with a fixed 75-pixel radius; clustering is disabled
at and beyond the maximum zoom ("zoom ≥ 20 always yields singleton
markers"); below the maximum zoom, a grid cell holding at least two
points merges into one cluster marker carrying the centroid coordinate
and the contained-point count. -/
def clusterPoints (points : List PointM) (bounds : BoundsM) (zoom : ℚ) :
    List RenderPrim :=
  let visible := points.filter (fun p => inBounds bounds p)
  if 20 ≤ zoom then visible.map RenderPrim.singleMarker
  else
    (gridCells ⌊zoom⌋.toNat visible).map (fun cell =>
      match cell.2 with
      | [p] => RenderPrim.singleMarker p
      | ps => RenderPrim.clusterMarker (centroidLng ps) (centroidLat ps) ps.length)

/-- C5. At every zoom level ≥ 20 the clusterer yields exactly the
singleton markers of the in-viewport issues and no cluster marker, for
every issue set and viewport bounds. -/
theorem clusterPoints_maxZoom_singletons (issues : List Issue) (bounds : BoundsM)
    (zoom : ℚ) (h : 20 ≤ zoom) :
    clusterPoints (issuePoints issues) bounds zoom =
      ((issuePoints issues).filter (fun p => inBounds bounds p)).map
        RenderPrim.singleMarker ∧
    ∀ r ∈ clusterPoints (issuePoints issues) bounds zoom,
      ∀ lng lat c, r ≠ RenderPrim.clusterMarker lng lat c := by
  have he : clusterPoints (issuePoints issues) bounds zoom =
      ((issuePoints issues).filter (fun p => inBounds bounds p)).map
        RenderPrim.singleMarker := by
    simp [clusterPoints, h]
  refine ⟨he, ?_⟩
  intro r hr lng lat c
  rw [he] at hr
  rcases List.mem_map.mp hr with ⟨p, _, rfl⟩
  simp

theorem clusterPoints_maxZoom_singletons_witness :
    clusterPoints (issuePoints [issueWithCategory "i1" "A", issueWithCategory "i2" "B"])
        { west := -1, south := -1, east := 1, north := 1 } 20 =
      [RenderPrim.singleMarker { id := "i1", lng := 0, lat := 0 },
       RenderPrim.singleMarker { id := "i2", lng := 0, lat := 0 }] := by
  rw [(clusterPoints_maxZoom_singletons
    [issueWithCategory "i1" "A", issueWithCategory "i2" "B"]
    { west := -1, south := -1, east := 1, north := 1 } 20 (by norm_num)).1]
  decide

end AtlasCivico
